import Mathlib

/-!
A shallow embedding of the Chaum-Pedersen ZKP authentication system
(crate `zkp-chaum-pedersen`): the sigma-protocol engine from `src/lib.rs`
and the gRPC authentication server state machine from `src/server.rs`.

`BigUint` values are modelled as `Nat` (the Rust crate's big unsigned
integers are exactly the natural numbers; `a.modpow(e, m)` is `a ^ e % m`,
and `modpow(&1, m)` is plain reduction `% m`).  Randomness
(`generate_random_number_below`, `generate_random_string`) is modelled by
passing the drawn value as an explicit oracle argument to the operation
that draws it.  The byte-string request fields (`from_bytes_be`) are
modelled by the natural numbers they decode to.
-/

/-- The group-parameter struct `ZKP { p, q, g, h }` of `src/lib.rs`. -/
structure ZKP where
  p : Nat
  q : Nat
  g : Nat
  h : Nat

/-- `ZKP::exponentiate(n, exponent, modulus)`: `n.modpow(exponent, modulus)`,
i.e. `n ^ exponent % modulus`. -/
def ZKP.exponentiate (n exponent modulus : Nat) : Nat :=
  n ^ exponent % modulus

/-- `ZKP::solve(&self, k, c, x)` from `src/lib.rs` lines 21-27:
`if *k >= c * x { (k - c * x).modpow(1, q) } else { q - (c * x - k).modpow(1, q) }`. -/
def ZKP.solve (zkp : ZKP) (k c x : Nat) : Nat :=
  if c * x ≤ k then
    (k - c * x) % zkp.q
  else
    zkp.q - (c * x - k) % zkp.q

/-- `ZKP::solve_unified(&self, k, c, x)` from `src/lib.rs` lines 30-39:
the same computation with `c * x` bound once to `cx`. -/
def ZKP.solve_unified (zkp : ZKP) (k c x : Nat) : Nat :=
  let cx := c * x
  if cx ≤ k then
    (k - cx) % zkp.q
  else
    zkp.q - (cx - k) % zkp.q

/-- `ZKP::verify(&self, r1, r2, y1, y2, c, s)` from `src/lib.rs` lines 43-59:
`r1 == (g.modpow(s,p) * y1.modpow(c,p)).modpow(1,p)` and likewise for `r2`
with `h` and `y2`. -/
def ZKP.verify (zkp : ZKP) (r1 r2 y1 y2 c s : Nat) : Bool :=
  (r1 == (zkp.g ^ s % zkp.p) * (y1 ^ c % zkp.p) % zkp.p) &&
  (r2 == (zkp.h ^ s % zkp.p) * (y2 ^ c % zkp.p) % zkp.p)

/-- The 1024-bit prime modulus `p` of `ZKP::get_constants` (the hex literal
decoded by `BigUint::from_bytes_be`). -/
def constP : Nat :=
  0xB10B8F96A080E01DDE92DE5EAE5D54EC52C99FBCFB06A3C69A6A9DCA52D23B616073E28675A23D189838EF1E2EE652C013ECB4AEA906112324975C3CD49B83BFACCBDD7D90C4BD7098488E9C219A73724EFFD6FAE5644738FAA31A4FF55BCCC0A151AF5F0DC8B4BD45BF37DF365C1A65E68CFDA76D4DA708DF1FB2BC2E4A4371

/-- The subgroup order `q` of `ZKP::get_constants`. -/
def constQ : Nat := 0xF518AA8781A8DF278ABA4E7D64B7CB9D49462353

/-- The generator `g` of `ZKP::get_constants`. -/
def constG : Nat :=
  0xA4D1CBD5C3FD34126765A442EFB99905F8104DD258AC507FD6406CFF14266D31266FEA1E5C41564B777E690F5504F213160217B4B01B886A5E91547F9E2749F4D7FBD7D3B9A92EE1909D0D2263F80A76A6A24C087A091F531DBF0A0169B6A28AD662A4D18E73AFA32D779D5918D08BC8858F4DCEF97C2A24855E6EEB22B3B2E5

/-- The fixed exponent used to derive the second generator `h` in
`ZKP::get_constants`. -/
def constExp : Nat := 0x8E73AFA32D779D5918D08BC8858F4DCEF97C2A24855E6EEB22B3B2E5

/-- `ZKP::get_constants() -> (g, h, p, q)` from `src/lib.rs` lines 75-89:
`h = g.modpow(exp, p)`. -/
def ZKP.get_constants : Nat × Nat × Nat × Nat :=
  (constG, constG ^ constExp % constP, constP, constQ)

/-! ## The gRPC server of `src/server.rs` -/

/-- gRPC status codes used by the server (`tonic::Code`). -/
inductive Code where
  | notFound
  | permissionDenied
deriving DecidableEq

/-- A `tonic::Status`: a code plus a message string. -/
structure Status where
  code : Code
  message : String
deriving DecidableEq

/-- The `UserInfo` record of `src/server.rs` lines 15-30.  `UserInfo::default()`
zeroes the numbers and empties the strings. -/
structure UserInfo where
  user_name : String
  y1 : Nat
  y2 : Nat
  r1 : Nat
  r2 : Nat
  c : Nat
  s : Nat
  session_id : String
deriving DecidableEq

/-- The server state `AuthImpl`: the lock-guarded hash maps
`user_info : HashMap<String, UserInfo>` and
`auth_id_to_user : HashMap<String, String>`, modelled as partial maps. -/
structure AuthImpl where
  user_info : String → Option UserInfo
  auth_id_to_user : String → Option String

/-- `AuthImpl::default()`: both tables empty. -/
def AuthImpl.default : AuthImpl :=
  { user_info := fun _ => none, auth_id_to_user := fun _ => none }

/-- The `ZKP` value the server builds from `ZKP::get_constants()` in
`verify_authentication` (`let (g, h, p, q) = ZKP::get_constants();
let zkp = ZKP { p, q, g, h };`). -/
def serverZKP : ZKP :=
  { p := ZKP.get_constants.2.2.1
    q := ZKP.get_constants.2.2.2
    g := ZKP.get_constants.1
    h := ZKP.get_constants.2.1 }

/-- `AuthImpl::register` (`src/server.rs` lines 34-51): builds a `UserInfo`
from the request with the remaining fields defaulted and inserts it under the
user's name, overwriting any previous entry.  Always returns `Ok`. -/
def AuthImpl.register (st : AuthImpl) (user : String) (y1 y2 : Nat) :
    Except Status Unit × AuthImpl :=
  let info : UserInfo :=
    { user_name := user, y1 := y1, y2 := y2
      r1 := 0, r2 := 0, c := 0, s := 0, session_id := "" }
  (.ok (),
   { st with user_info := fun u => if u = user then some info else st.user_info u })

/-- `AuthImpl::create_authentication_challenge` (`src/server.rs` lines 53-86).
The randomly drawn challenge `c = generate_random_number_below(&q)` and
session handle `auth_id = generate_random_string(12)` enter as oracle
arguments.  On a registry hit it stores `r1`, `r2`, `c` in the user's record,
maps `auth_id` to the user and answers `(auth_id, c)`; otherwise it fails with
`NotFound` and leaves the state untouched. -/
def AuthImpl.create_authentication_challenge (st : AuthImpl) (user : String)
    (r1 r2 : Nat) (c : Nat) (auth_id : String) :
    Except Status (String × Nat) × AuthImpl :=
  match st.user_info user with
  | some info =>
      let info2 : UserInfo := { info with r1 := r1, r2 := r2, c := c }
      (.ok (auth_id, c),
       { user_info := fun u => if u = user then some info2 else st.user_info u
         auth_id_to_user := fun a => if a = auth_id then some user else st.auth_id_to_user a })
  | none =>
      (.error ⟨.notFound, "User: " ++ user ++ " not found in the database"⟩, st)

/-- `AuthImpl::verify_authentication` (`src/server.rs` lines 88-132).  The
randomly drawn `session_id = generate_random_string(12)` enters as an oracle
argument.  The `user_info_hashmap.get_mut(user_name).unwrap()` of line 100 is
modelled by the outer `Option`: `none` is the panic of an `unwrap` on a
missing credential.  On a session hit it runs `ZKP::verify` on the stored
`r1, r2, y1, y2, c` and the submitted `s`; success stores and returns the
fresh `session_id`, failure answers `PermissionDenied`; an unknown `auth_id`
answers `NotFound`. -/
def AuthImpl.verify_authentication (st : AuthImpl) (auth_id : String) (s : Nat)
    (session_id : String) : Option (Except Status String × AuthImpl) :=
  match st.auth_id_to_user auth_id with
  | some user_name =>
      match st.user_info user_name with
      | some info =>
          if serverZKP.verify info.r1 info.r2 info.y1 info.y2 info.c s then
            some (.ok session_id,
              { st with user_info := fun u =>
                  if u = user_name then some { info with session_id := session_id }
                  else st.user_info u })
          else
            some (.error ⟨.permissionDenied, "AuthId: " ++ auth_id ++ " is not verified"⟩, st)
      | none => none
  | none =>
      some (.error ⟨.notFound, "AuthId: " ++ auth_id ++ " not found in the database"⟩, st)

/-- States reachable from the fresh server `AuthImpl::default()` by any
sequence of the three RPC handlers, with arbitrary request fields and
arbitrary outcomes of the random draws.  A `verify_authentication` call
yields a successor state only when it does not panic. -/
inductive Reachable : AuthImpl → Prop where
  | init : Reachable AuthImpl.default
  | register {st : AuthImpl} (user : String) (y1 y2 : Nat) :
      Reachable st → Reachable (st.register user y1 y2).2
  | challenge {st : AuthImpl} (user : String) (r1 r2 c : Nat) (auth_id : String) :
      Reachable st →
      Reachable (st.create_authentication_challenge user r1 r2 c auth_id).2
  | verify {st : AuthImpl} (auth_id : String) (s : Nat) (session_id : String)
      {pr : Except Status String × AuthImpl} :
      Reachable st → st.verify_authentication auth_id s session_id = some pr →
      Reachable pr.2

/-- `true` exactly when `verify_authentication` answers `Ok` (a fresh
`session_id`) on this request. -/
def AuthImpl.verifySucceeds (st : AuthImpl) (auth_id : String) (s : Nat)
    (session_id : String) : Bool :=
  match st.verify_authentication auth_id s session_id with
  | some (.ok _, _) => true
  | _ => false

/-- The server state after a `verify_authentication` call (the state itself
when the call panics). -/
def AuthImpl.afterVerify (st : AuthImpl) (auth_id : String) (s : Nat)
    (session_id : String) : AuthImpl :=
  match st.verify_authentication auth_id s session_id with
  | some (_, st2) => st2
  | none => st

/-- Concrete replay scenario, step 1: the fresh server after
`register(user := "u", y1 := 0, y2 := 0)`. -/
def demoState1 : AuthImpl := (AuthImpl.default.register "u" 0 0).2

/-- Concrete replay scenario, step 2: after
`create_authentication_challenge(user := "u", r1 := 0, r2 := 0)` whose random
draws produced `c = 1` and `auth_id = "A"`. -/
def demoState2 : AuthImpl :=
  (demoState1.create_authentication_challenge "u" 0 0 1 "A").2

/-- The `UserInfo` record stored for `"u"` in `demoState2`: the registered
credential `y1 = y2 = 0` updated with the challenge data `r1 = r2 = 0`,
`c = 1`. -/
def demoInfo : UserInfo :=
  { user_name := "u", y1 := 0, y2 := 0, r1 := 0, r2 := 0, c := 1, s := 0, session_id := "" }

/-- The lock-guarded tables of `AuthImpl` (`src/server.rs` lines 11-12):
each field sits behind its own `Mutex`. -/
inductive ServerLock where
  | userInfoTable
  | authIdToUserTable
deriving DecidableEq

/-- The order in which `create_authentication_challenge` acquires the two
table locks: `self.user_info.lock()` on line 61 (the guard stays bound for
the whole body) and then `self.auth_id_to_user.lock()` on line 73 while the
first guard is still held. -/
def create_authentication_challenge_locks : List ServerLock :=
  [.userInfoTable, .authIdToUserTable]

/-- The order in which `verify_authentication` acquires the two table locks:
`self.auth_id_to_user.lock()` on line 96 (the guard stays bound for the whole
body) and then `self.user_info.lock()` on line 99 while the first guard is
still held. -/
def verify_authentication_locks : List ServerLock :=
  [.authIdToUserTable, .userInfoTable]

/-! ## Helper lemmas -/

/-- `solve` inverts the response equation modulo `q`: `s + c·x ≡ k (mod q)`. -/
lemma solve_add_mul_modeq (zkp : ZKP) (hq : 0 < zkp.q) (k c x : Nat) :
    zkp.solve k c x + c * x ≡ k [MOD zkp.q] := by
  unfold ZKP.solve
  split
  case isTrue hle =>
    calc (k - c * x) % zkp.q + c * x
        ≡ (k - c * x) + c * x [MOD zkp.q] := (Nat.mod_modEq _ _).add_right _
      _ = k := Nat.sub_add_cancel hle
  case isFalse hlt =>
    have hk : k ≤ c * x := le_of_not_le hlt
    have h1 : c * x - k ≡ (c * x - k) % zkp.q [MOD zkp.q] := (Nat.mod_modEq _ _).symm
    calc zkp.q - (c * x - k) % zkp.q + c * x
        = zkp.q - (c * x - k) % zkp.q + (k + (c * x - k)) := by
          rw [Nat.add_sub_cancel' hk]
      _ ≡ zkp.q - (c * x - k) % zkp.q + (k + (c * x - k) % zkp.q) [MOD zkp.q] :=
          Nat.ModEq.add_left _ (Nat.ModEq.add_left _ h1)
      _ = k + zkp.q := by
          have hr : (c * x - k) % zkp.q < zkp.q := Nat.mod_lt _ hq
          omega
      _ ≡ k [MOD zkp.q] := by
          show (k + zkp.q) % zkp.q = k % zkp.q
          exact Nat.add_mod_right _ _

/-- When the base has `a ^ q ≡ 1 (mod p)`, exponents can be reduced mod `q`. -/
lemma pow_modeq_pow_mod {p q a : Nat} (ha : a ^ q ≡ 1 [MOD p]) (e : Nat) :
    a ^ e ≡ a ^ (e % q) [MOD p] := by
  conv_lhs => rw [← Nat.div_add_mod e q]
  rw [pow_add, pow_mul]
  calc (a ^ q) ^ (e / q) * a ^ (e % q)
      ≡ 1 ^ (e / q) * a ^ (e % q) [MOD p] := (ha.pow _).mul_right _
    _ = a ^ (e % q) := by rw [one_pow, one_mul]

/-- One side of the verification equation: with `s + c·x ≡ k (mod q)` and a
base of exponent order dividing `q`, `a^s · (a^x)^c` reduces to `a^k` mod `p`. -/
lemma verify_side {p q a : Nat} (ha : a ^ q ≡ 1 [MOD p])
    (s x c k : Nat) (hmod : s + c * x ≡ k [MOD q]) :
    (a ^ s % p) * ((a ^ x % p) ^ c % p) % p = a ^ k % p := by
  have h1 : (a ^ x % p) ^ c % p = a ^ (x * c) % p := by
    rw [← Nat.pow_mod, ← pow_mul]
  rw [h1, ← Nat.mul_mod, ← pow_add]
  have h2 : (s + x * c) % q = k % q := by
    rw [mul_comm x c]; exact hmod
  calc a ^ (s + x * c)
      ≡ a ^ ((s + x * c) % q) [MOD p] := pow_modeq_pow_mod ha _
    _ = a ^ (k % q) := by rw [h2]
    _ ≡ a ^ k [MOD p] := (pow_modeq_pow_mod ha k).symm

/-- All-zero inputs with `s = 0` satisfy the verification equations for any
group: `0 == (g^0 mod p) · (0^c mod p) mod p` reduces to `0 == 0`. -/
lemma verify_all_zero (zkp : ZKP) (c : Nat) (hc : 0 < c) :
    zkp.verify 0 0 0 0 c 0 = true := by
  simp [ZKP.verify, pow_zero, zero_pow hc.ne', Nat.zero_mod, mul_zero]

lemma verify_auth_succeeds_iff (st : AuthImpl) (a : String) (s : Nat) (sid : String) :
    st.verifySucceeds a s sid = true ↔
      ∃ u info, st.auth_id_to_user a = some u ∧ st.user_info u = some info ∧
        serverZKP.verify info.r1 info.r2 info.y1 info.y2 info.c s = true := by
  unfold AuthImpl.verifySucceeds AuthImpl.verify_authentication
  cases hA : st.auth_id_to_user a with
  | none => simp
  | some u =>
    cases hU : st.user_info u with
    | none => simp [hU]
    | some info =>
      cases hV : serverZKP.verify info.r1 info.r2 info.y1 info.y2 info.c s <;>
        simp [hU, hV]

lemma verify_auth_success_eq (st : AuthImpl) (a : String) (s : Nat) (sid : String)
    (u : String) (info : UserInfo)
    (h1 : st.auth_id_to_user a = some u) (h2 : st.user_info u = some info)
    (h3 : serverZKP.verify info.r1 info.r2 info.y1 info.y2 info.c s = true) :
    st.verify_authentication a s sid =
      some (.ok sid,
        { st with user_info := fun v =>
            if v = u then some { info with session_id := sid } else st.user_info v }) := by
  simp [AuthImpl.verify_authentication, h1, h2, h3]

/-- C3 (amended): challenge sessions are not single-use.  A successful
`verify_authentication` leaves the `auth_id` in the session table and the
verification data unchanged, so repeating the call on the resulting state
with the same correct `s` (and any fresh `session_id` draw) succeeds again. -/
theorem replay_second_success (st : AuthImpl) (auth_id : String) (s : Nat)
    (sid sid' : String) (h : st.verifySucceeds auth_id s sid = true) :
    (st.afterVerify auth_id s sid).verifySucceeds auth_id s sid' = true := by
  rw [verify_auth_succeeds_iff] at h
  obtain ⟨u, info, h1, h2, h3⟩ := h
  have he := verify_auth_success_eq st auth_id s sid u info h1 h2 h3
  have hafter : st.afterVerify auth_id s sid =
      { st with user_info := fun v =>
          if v = u then some { info with session_id := sid } else st.user_info v } := by
    unfold AuthImpl.afterVerify
    rw [he]
  rw [hafter, verify_auth_succeeds_iff]
  refine ⟨u, { info with session_id := sid }, h1, ?_, h3⟩
  simp

lemma afterVerify_of_eq (st : AuthImpl) (a : String) (s : Nat) (sid : String)
    (res : Except Status String) (st2 : AuthImpl)
    (h : st.verify_authentication a s sid = some (res, st2)) :
    st.afterVerify a s sid = st2 := by
  unfold AuthImpl.afterVerify
  rw [h]


lemma demo2_auth_lookup : demoState2.auth_id_to_user "A" = some "u" := rfl

lemma demo2_user_lookup : demoState2.user_info "u" = some demoInfo := rfl

lemma demo_he : demoState2.verify_authentication "A" 0 "S1" =
      some (.ok "S1",
        { demoState2 with user_info := fun v =>
            if v = "u" then some { demoInfo with session_id := "S1" }
            else demoState2.user_info v }) :=
  verify_auth_success_eq demoState2 "A" 0 "S1" "u" demoInfo
    demo2_auth_lookup demo2_user_lookup (verify_all_zero serverZKP 1 one_pos)

lemma demo_first_verify : demoState2.verifySucceeds "A" 0 "S1" = true := by
  rw [verify_auth_succeeds_iff]
  exact ⟨"u", demoInfo, demo2_auth_lookup, demo2_user_lookup,
    verify_all_zero serverZKP 1 one_pos⟩

lemma demo_second_verify :
    (demoState2.afterVerify "A" 0 "S1").verifySucceeds "A" 0 "S2" = true := by
  rw [afterVerify_of_eq demoState2 "A" 0 "S1" _ _ demo_he, verify_auth_succeeds_iff]
  refine ⟨"u", { demoInfo with session_id := "S1" }, demo2_auth_lookup, ?_,
    verify_all_zero serverZKP 1 one_pos⟩
  simp

/-- C3 counterexample: a concrete reachable state (register `"u"`, then a
challenge stored under `auth_id = "A"`) in which the same `auth_id` is
verified successfully twice in a row, refuting single-use sessions. -/
theorem replay_counterexample :
    demoState2.verifySucceeds "A" 0 "S1" = true ∧
      (demoState2.afterVerify "A" 0 "S1").verifySucceeds "A" 0 "S2" = true :=
  ⟨demo_first_verify, demo_second_verify⟩

/-- C3 witness: the amended replay theorem applied at the concrete
two-step state. -/
theorem replay_second_success_witness :
    (demoState2.afterVerify "A" 0 "S1").verifySucceeds "A" 0 "S3" = true :=
  replay_second_success demoState2 "A" 0 "S1" "S3" demo_first_verify

lemma reachable_auth_user_registered {st : AuthImpl} (h : Reachable st) :
    ∀ a u, st.auth_id_to_user a = some u → (st.user_info u).isSome = true := by
  induction h with
  | init =>
      intro a u hau
      simp [AuthImpl.default] at hau
  | @register st user y1 y2 hst ih =>
      intro a u hau
      simp only [AuthImpl.register] at hau ⊢
      by_cases hu : u = user
      · simp [hu]
      · simpa [hu] using ih a u hau
  | @challenge st user r1 r2 c auth_id hst ih =>
      intro a u hau
      unfold AuthImpl.create_authentication_challenge at hau ⊢
      cases hU : st.user_info user with
      | none =>
          simp only [hU] at hau ⊢
          exact ih a u hau
      | some info =>
          simp only [hU] at hau ⊢
          by_cases ha : a = auth_id
          · rw [ha, if_pos rfl] at hau
            obtain rfl : user = u := by simpa using hau
            simp
          · rw [if_neg ha] at hau
            by_cases hu : u = user
            · simp [hu]
            · simpa [hu] using ih a u hau
  | @verify st auth_id s session_id pr hst hcall ih =>
      intro a u hau
      unfold AuthImpl.verify_authentication at hcall
      cases hA : st.auth_id_to_user auth_id with
      | none =>
          simp only [hA, Option.some.injEq] at hcall
          rw [← hcall] at hau ⊢
          exact ih a u hau
      | some user_name =>
          simp only [hA] at hcall
          cases hU : st.user_info user_name with
          | none => simp [hU] at hcall
          | some info =>
              simp only [hU] at hcall
              by_cases hV : serverZKP.verify info.r1 info.r2 info.y1 info.y2 info.c s = true
              · rw [if_pos hV] at hcall
                simp only [Option.some.injEq] at hcall
                rw [← hcall] at hau ⊢
                simp only at hau ⊢
                by_cases hu : u = user_name
                · simp [hu]
                · simpa [hu] using ih a u hau
              · rw [if_neg hV] at hcall
                simp only [Option.some.injEq] at hcall
                rw [← hcall] at hau ⊢
                exact ih a u hau

lemma verify_auth_never_panics {st : AuthImpl} (hst : Reachable st)
    (auth_id : String) (s : Nat) (session_id : String) :
    st.verify_authentication auth_id s session_id ≠ none := by
  unfold AuthImpl.verify_authentication
  cases hA : st.auth_id_to_user auth_id with
  | none => simp
  | some u =>
      have hs := reachable_auth_user_registered hst auth_id u hA
      cases hU : st.user_info u with
      | none => rw [hU] at hs; simp at hs
      | some info =>
          cases hV : serverZKP.verify info.r1 info.r2 info.y1 info.y2 info.c s <;>
            simp [hU, hV]

/-- C9: in every reachable server state, each user name stored as a value of
`auth_id_to_user` is a key of `user_info`; consequently the credential
lookup inside `verify_authentication` (the `unwrap` after a session-table
hit) never panics. -/
theorem session_table_invariant (st : AuthImpl) (hst : Reachable st) :
    (∀ a u, st.auth_id_to_user a = some u → (st.user_info u).isSome = true) ∧
      ∀ auth_id s session_id, st.verify_authentication auth_id s session_id ≠ none :=
  ⟨reachable_auth_user_registered hst, fun a s sid => verify_auth_never_panics hst a s sid⟩

/-- C9 witness: the invariant theorem applied at the concrete reachable
state `demoState2`. -/
theorem session_table_invariant_witness :
    (∀ a u, demoState2.auth_id_to_user a = some u →
        (demoState2.user_info u).isSome = true) ∧
      ∀ auth_id s session_id,
        demoState2.verify_authentication auth_id s session_id ≠ none :=
  session_table_invariant demoState2
    (Reachable.challenge "u" 0 0 1 "A" (Reachable.register "u" 0 0 Reachable.init))

/-- C6: on every reachable state, `verify_authentication` answers `NotFound`
exactly when the `auth_id` is absent from the session table,
`PermissionDenied` exactly when it is present but `ZKP::verify` on the
stored `r1, r2, y1, y2, c` and the submitted `s` is false, and a
`session_id` otherwise; every error message contains the offending
`auth_id`. -/
theorem verify_authentication_errors (st : AuthImpl) (hst : Reachable st)
    (auth_id : String) (s : Nat) (session_id : String) :
    ∃ res st2, st.verify_authentication auth_id s session_id = some (res, st2) ∧
      ((∃ m, res = .error ⟨.notFound, m⟩) ↔ st.auth_id_to_user auth_id = none) ∧
      ((∃ m, res = .error ⟨.permissionDenied, m⟩) ↔
        ∃ u info, st.auth_id_to_user auth_id = some u ∧ st.user_info u = some info ∧
          serverZKP.verify info.r1 info.r2 info.y1 info.y2 info.c s = false) ∧
      ((∃ sid2, res = .ok sid2) ↔
        ∃ u info, st.auth_id_to_user auth_id = some u ∧ st.user_info u = some info ∧
          serverZKP.verify info.r1 info.r2 info.y1 info.y2 info.c s = true) ∧
      ∀ code m, res = .error ⟨code, m⟩ → ∃ pre post, m = pre ++ auth_id ++ post := by
  cases hA : st.auth_id_to_user auth_id with
  | none =>
      have he : st.verify_authentication auth_id s session_id =
          some (.error ⟨.notFound, "AuthId: " ++ auth_id ++ " not found in the database"⟩, st) := by
        simp [AuthImpl.verify_authentication, hA]
      refine ⟨_, _, he, by simp [hA], by simp [hA], by simp [hA], ?_⟩
      intro code m hm
      simp only [Except.error.injEq, Status.mk.injEq] at hm
      exact ⟨"AuthId: ", " not found in the database", hm.2.symm⟩
  | some u =>
      have hs := reachable_auth_user_registered hst auth_id u hA
      cases hU : st.user_info u with
      | none => rw [hU] at hs; simp at hs
      | some info =>
          cases hV : serverZKP.verify info.r1 info.r2 info.y1 info.y2 info.c s with
          | true =>
              have he := verify_auth_success_eq st auth_id s session_id u info hA hU hV
              refine ⟨_, _, he, by simp [hA], by simp [hA, hU, hV], ?_, ?_⟩
              · simp only [Except.ok.injEq]
                constructor
                · intro
                  exact ⟨u, info, rfl, hU, hV⟩
                · intro
                  exact ⟨session_id, rfl⟩
              · intro code m hm
                simp at hm
          | false =>
              have he : st.verify_authentication auth_id s session_id =
                  some (.error ⟨.permissionDenied, "AuthId: " ++ auth_id ++ " is not verified"⟩, st) := by
                simp [AuthImpl.verify_authentication, hA, hU, hV]
              refine ⟨_, _, he, by simp [hA], ?_, ?_, ?_⟩
              · simp only [Except.error.injEq, Status.mk.injEq]
                constructor
                · intro
                  exact ⟨u, info, rfl, hU, hV⟩
                · intro
                  exact ⟨"AuthId: " ++ auth_id ++ " is not verified", by simp⟩
              · constructor
                · rintro ⟨sid2, hm⟩
                  simp at hm
                · rintro ⟨u', info', hu', hi', hv'⟩
                  obtain rfl : u = u' := by simpa using hu'
                  rw [hU, Option.some.injEq] at hi'
                  subst hi'
                  rw [hV] at hv'
                  simp at hv'
              · intro code m hm
                simp only [Except.error.injEq, Status.mk.injEq] at hm
                exact ⟨"AuthId: ", " is not verified", hm.2.symm⟩

/-- C6 witness: the error-behaviour theorem applied at the concrete
reachable state `demoState2` with `auth_id = "A"`, `s = 0`. -/
theorem verify_authentication_errors_witness :
    ∃ res st2, demoState2.verify_authentication "A" 0 "S1" = some (res, st2) ∧
      ((∃ m, res = .error ⟨.notFound, m⟩) ↔ demoState2.auth_id_to_user "A" = none) ∧
      ((∃ m, res = .error ⟨.permissionDenied, m⟩) ↔
        ∃ u info, demoState2.auth_id_to_user "A" = some u ∧
          demoState2.user_info u = some info ∧
          serverZKP.verify info.r1 info.r2 info.y1 info.y2 info.c 0 = false) ∧
      ((∃ sid2, res = .ok sid2) ↔
        ∃ u info, demoState2.auth_id_to_user "A" = some u ∧
          demoState2.user_info u = some info ∧
          serverZKP.verify info.r1 info.r2 info.y1 info.y2 info.c 0 = true) ∧
      ∀ code m, res = .error ⟨code, m⟩ → ∃ pre post, m = pre ++ "A" ++ post :=
  verify_authentication_errors demoState2
    (Reachable.challenge "u" 0 0 1 "A" (Reachable.register "u" 0 0 Reachable.init))
    "A" 0 "S1"

/-- C7: `create_authentication_challenge` answers `NotFound` exactly when the
user has no credential, and then leaves the state unchanged; on a registry
hit it answers `(auth_id, c)`, stores the submitted `r1, r2` and the drawn
`c` in that user's record, maps the fresh `auth_id` to the user, and touches
no other entry of either table. -/
theorem create_challenge_errors (st : AuthImpl) (user : String) (r1 r2 c : Nat)
    (auth_id : String) :
    ((∃ m, (st.create_authentication_challenge user r1 r2 c auth_id).1 =
        .error ⟨.notFound, m⟩) ↔ st.user_info user = none) ∧
      (st.user_info user = none →
        (st.create_authentication_challenge user r1 r2 c auth_id).2 = st ∧
        (st.create_authentication_challenge user r1 r2 c auth_id).1 =
          .error ⟨.notFound, "User: " ++ user ++ " not found in the database"⟩) ∧
      ∀ info, st.user_info user = some info →
        (st.create_authentication_challenge user r1 r2 c auth_id).1 = .ok (auth_id, c) ∧
        (st.create_authentication_challenge user r1 r2 c auth_id).2.user_info user =
          some { info with r1 := r1, r2 := r2, c := c } ∧
        (st.create_authentication_challenge user r1 r2 c auth_id).2.auth_id_to_user auth_id =
          some user ∧
        (∀ u, u ≠ user →
          (st.create_authentication_challenge user r1 r2 c auth_id).2.user_info u =
            st.user_info u) ∧
        ∀ a, a ≠ auth_id →
          (st.create_authentication_challenge user r1 r2 c auth_id).2.auth_id_to_user a =
            st.auth_id_to_user a := by
  cases hU : st.user_info user with
  | none =>
      refine ⟨by simp [AuthImpl.create_authentication_challenge, hU], ?_, ?_⟩
      · intro
        simp [AuthImpl.create_authentication_challenge, hU]
      · intro info hinfo
        simp at hinfo
  | some info0 =>
      refine ⟨by simp [AuthImpl.create_authentication_challenge, hU], ?_, ?_⟩
      · intro hnone
        simp at hnone
      · intro info hinfo
        obtain rfl : info0 = info := by simpa using hinfo
        refine ⟨by simp [AuthImpl.create_authentication_challenge, hU], ?_, ?_, ?_, ?_⟩
        · simp [AuthImpl.create_authentication_challenge, hU]
        · simp [AuthImpl.create_authentication_challenge, hU]
        · intro u hu
          simp [AuthImpl.create_authentication_challenge, hU, hu]
        · intro a ha
          simp [AuthImpl.create_authentication_challenge, hU, ha]

/-- C8: `register` always answers `Ok`, and registering the same user twice
keeps only the second credential: the record afterwards holds `y1', y2'`
(with defaulted remaining fields), and a subsequent challenge for that user
reads and updates exactly that second record. -/
theorem register_last_write_wins (st : AuthImpl) (user : String) (y1 y2 y1' y2' : Nat) :
    (st.register user y1 y2).1 = .ok () ∧
      ((st.register user y1 y2).2.register user y1' y2').2.user_info user =
        some { user_name := user, y1 := y1', y2 := y2',
               r1 := 0, r2 := 0, c := 0, s := 0, session_id := "" } ∧
      ∀ r1 r2 c auth_id,
        (((st.register user y1 y2).2.register user y1' y2').2.create_authentication_challenge
            user r1 r2 c auth_id).2.user_info user =
          some { user_name := user, y1 := y1', y2 := y2',
                 r1 := r1, r2 := r2, c := c, s := 0, session_id := "" } := by
  refine ⟨rfl, by simp [AuthImpl.register], ?_⟩
  intro r1 r2 c auth_id
  simp [AuthImpl.register, AuthImpl.create_authentication_challenge]

/-- C1: completeness of the sigma protocol.  For a prime modulus `p`, prime
subgroup order `q` dividing `p - 1`, and generators `g`, `h` of order `q`
modulo `p` (so `g ^ q ≡ 1` and `h ^ q ≡ 1 (mod p)`, the consequence of the
order hypothesis the proof uses), every secret `x`, nonce `k` and challenge
`c` in `[0, q)` make `verify` accept the honest transcript
`y1 = g^x, y2 = h^x, r1 = g^k, r2 = h^k (mod p)`, `s = solve(k, c, x)`. -/
theorem sigma_completeness (p q g h x k c : Nat)
    (hp : Nat.Prime p) (hq : Nat.Prime q) (hdvd : q ∣ p - 1)
    (hg : g ^ q ≡ 1 [MOD p]) (hh : h ^ q ≡ 1 [MOD p])
    (hx : x < q) (hk : k < q) (hc : c < q) :
    (ZKP.mk p q g h).verify (g ^ k % p) (h ^ k % p) (g ^ x % p) (h ^ x % p) c
      ((ZKP.mk p q g h).solve k c x) = true := by
  have hmod : (ZKP.mk p q g h).solve k c x + c * x ≡ k [MOD q] :=
    solve_add_mul_modeq (ZKP.mk p q g h) hq.pos k c x
  simp only [ZKP.verify]
  rw [verify_side hg _ _ _ _ hmod, verify_side hh _ _ _ _ hmod]
  simp

/-- C1 witness: the toy group `p = 23, q = 11, g = 4, h = 9` of the crate's
tests, with `x = 6, k = 7, c = 4`. -/
theorem sigma_completeness_witness :
    (ZKP.mk 23 11 4 9).verify (4 ^ 7 % 23) (9 ^ 7 % 23) (4 ^ 6 % 23) (9 ^ 6 % 23) 4
      ((ZKP.mk 23 11 4 9).solve 7 4 6) = true :=
  sigma_completeness 23 11 4 9 6 7 4 (by norm_num) (by norm_num) (by decide)
    (by decide) (by decide) (by decide) (by decide) (by decide)

/-- C2 counterexample: with `q = 11`, `k = 0`, `c = 1`, `x = 11` the
subtraction branch computes `q - (c·x - k) % q = 11 - 0 = 11`, so `solve`
returns `q` itself — not `0`, and not a value in `[0, q)`. -/
theorem solve_range_counterexample :
    (ZKP.mk 23 11 4 9).solve 0 1 11 = 11 ∧
      ¬ ((ZKP.mk 23 11 4 9).solve 0 1 11 < 11) := by decide

/-- C2 (amended): for `q > 0`, `solve` returns a value in `[0, q]`, and the
value is exactly `q` precisely when `k < c·x` and `(c·x - k) % q = 0` (the
un-normalized `q - 0` of the subtraction branch); in every other case the
result lies in `[0, q)`. -/
theorem solve_range_amended (zkp : ZKP) (hq : 0 < zkp.q) (k c x : Nat) :
    zkp.solve k c x ≤ zkp.q ∧
      (zkp.solve k c x = zkp.q ↔ k < c * x ∧ (c * x - k) % zkp.q = 0) := by
  unfold ZKP.solve
  split
  case isTrue hle =>
    have hlt := Nat.mod_lt (k - c * x) hq
    omega
  case isFalse hgt =>
    have hlt := Nat.mod_lt (c * x - k) hq
    omega

/-- C2 witness: the amended range statement at the boundary input
`q = 11, k = 0, c = 1, x = 11`. -/
theorem solve_range_amended_witness :
    (ZKP.mk 23 11 4 9).solve 0 1 11 ≤ 11 ∧
      ((ZKP.mk 23 11 4 9).solve 0 1 11 = 11 ↔ 0 < 1 * 11 ∧ (1 * 11 - 0) % 11 = 0) :=
  solve_range_amended (ZKP.mk 23 11 4 9) (by decide) 0 1 11

/-- C4: the branching and "unified" response computations agree on every
input — `solve_unified` only binds `c * x` to a local before the identical
branch, so the two functions are definitionally equal, on both branches and
at the boundary `k = c·x`. -/
theorem solve_eq_solve_unified (zkp : ZKP) (k c x : Nat) :
    zkp.solve k c x = zkp.solve_unified k c x := rfl

/-- C5: the zero-input degenerate case.  For any group with `p > 1` and any
challenge `c > 0`, `verify(0, 0, 0, 0, c, 0)` returns true: `g^0 ≡ 1`,
`0^c ≡ 0`, so both equations reduce to `0 == 0`. -/
theorem verify_zero_inputs (zkp : ZKP) (hp : 1 < zkp.p) (c : Nat) (hc : 0 < c) :
    zkp.verify 0 0 0 0 c 0 = true :=
  verify_all_zero zkp c hc

/-- C5 witness: the toy group `p = 23, q = 11, g = 4, h = 9` with `c = 4`,
exactly the crate's `test_zero_values_with_nonzero_challenge`. -/
theorem verify_zero_inputs_witness :
    (ZKP.mk 23 11 4 9).verify 0 0 0 0 4 0 = true :=
  verify_zero_inputs (ZKP.mk 23 11 4 9) (by decide) 4 (by decide)

/-- C10 counterexample: the two cross-table operations do not acquire the
locks in one fixed global order — `create_authentication_challenge` takes
the credential-registry lock first, `verify_authentication` takes the
session-table lock first. -/
theorem lock_order_counterexample :
    ¬ (create_authentication_challenge_locks = verify_authentication_locks) := by
  decide

/-- C10 (amended): the two cross-table operations acquire the two locks in
opposite orders: `create_authentication_challenge` takes `user_info` then
`auth_id_to_user`, while `verify_authentication` takes `auth_id_to_user`
then `user_info` — exactly the reversed sequence, so the fixed-global-order
discipline the spec demands is absent. -/
theorem lock_order_opposite :
    create_authentication_challenge_locks = [.userInfoTable, .authIdToUserTable] ∧
      verify_authentication_locks = [.authIdToUserTable, .userInfoTable] ∧
      create_authentication_challenge_locks = verify_authentication_locks.reverse := by
  decide
